import Mathlib

/-!
Verification of the model promotion decision engine of the
vehicle-insurance MLOps pipeline, embedded from:
  - src/components/model_evaluation.py  (ModelEvaluation, EvaluateModelResponse)
  - src/utils/main_utils.py             (read_yaml_file, write_yaml_file)
  - src/cloud_storage/aws_storage.py    (SimpleStorageService.s3_key_path_available)
  - src/configuration/aws_connection.py (S3Client)
Python floats are modelled as exact rationals (the code performs only
subtraction and order comparison on the scores); YAML documents are modelled
as a small inductive value type; the S3 bucket is a list of key/value objects;
the local file system is a map from paths to YAML documents.
-/

/-- A scalar YAML value: float, boolean, Python `None` (serialized as null)
or string. -/
inductive YamlScalar where
  | flt (q : ℚ)
  | bool (b : Bool)
  | null
  | str (s : String)
deriving DecidableEq, Repr

/-- A YAML document as produced/consumed by `read_yaml_file` /
`write_yaml_file` in this pipeline: either a scalar or a flat key-value
mapping of scalars (the metric records and the evaluation report are flat
mappings). -/
inductive Yaml where
  | scalar (v : YamlScalar)
  | dict (entries : List (String × YamlScalar))
deriving DecidableEq, Repr

/-- Errors raised by the Python code. Every component wraps any underlying
exception into `MyException` (src/exception); the message records the cause. -/
inductive PyError where
  | myException (msg : String)
deriving DecidableEq, Repr

/-- The local file system seen by the YAML utilities: a map from file path to
the YAML document stored there (`none` = no file at that path). -/
def FileSys := String → Option Yaml

/-- `read_yaml_file` (src/utils/main_utils.py:16-31): opens the file and parses
it; a missing file makes `open` raise, wrapped into `MyException`. -/
def read_yaml_file (file_path : String) (fs : FileSys) : Except PyError Yaml :=
  match fs file_path with
  | none => .error (.myException ("FileNotFoundError: " ++ file_path))
  | some y => .ok y

/-- `os.remove`: deletes the file at `path`. -/
def os_remove (path : String) (fs : FileSys) : FileSys :=
  fun p => if p = path then none else fs p

/-- `write_yaml_file` (src/utils/main_utils.py:34-53): when `replace` is set
and the file exists it is removed first; then the file is opened in mode "w"
(truncating) and the content is dumped, so the path ends up holding exactly
`content` either way. -/
def write_yaml_file (file_path : String) (content : Yaml) (replace : Bool)
    (fs : FileSys) : FileSys :=
  let fs1 := if replace && (fs file_path).isSome then os_remove file_path fs else fs
  fun p => if p = file_path then some content else fs1 p

/-- Python subscription `d[key]` on a parsed YAML mapping, requiring a float
value (the scores are floats): raises on a non-mapping document, a missing
key (`KeyError`) or a non-float value. -/
def Yaml.getFloat (y : Yaml) (key : String) : Except PyError ℚ :=
  match y with
  | .dict entries =>
    match entries.lookup key with
    | some (.flt q) => .ok q
    | some _ => .error (.myException ("TypeError: value at " ++ key ++ " is not a float"))
    | none => .error (.myException ("KeyError: " ++ key))
  | .scalar _ => .error (.myException "TypeError: document is not a mapping")

/-- An S3 bucket: the stored objects, as key / YAML-content pairs (only metric
records are read through this model; model binaries matter here only through
their keys). -/
structure S3Bucket where
  objects : List (String × Yaml)
deriving DecidableEq, Repr

/-- `SimpleStorageService.s3_key_path_available`
(src/cloud_storage/aws_storage.py:32-51): lists the bucket objects whose key
has `s3_key` as a prefix (boto3 `objects.filter(Prefix=s3_key)`) and reports
whether that list is non-empty. -/
def s3_key_path_available (bucket : S3Bucket) (s3_key : String) : Bool :=
  ((bucket.objects.map Prod.fst).filter
    (fun k => s3_key.data.isPrefixOf k.data)).length > 0

/-- `EvaluateModelResponse` (src/components/model_evaluation.py:13-19):
the decision record. `best_model_f1_score` is `none` when no best model
exists (Python `None`). -/
structure EvaluateModelResponse where
  trained_model_f1_score : ℚ
  best_model_f1_score : Option ℚ
  is_model_accepted : Bool
  difference : ℚ
deriving DecidableEq, Repr

/-- `tmp_best_model_score = 0 if best_model_f1_score is None else
best_model_f1_score` (src/components/model_evaluation.py:92). -/
def tmp_best_model_score (best_model_f1_score : Option ℚ) : ℚ :=
  match best_model_f1_score with
  | none => 0
  | some s => s

/-- The decision computation of `ModelEvaluation.evaluate_model`
(src/components/model_evaluation.py:92-97): builds the
`EvaluateModelResponse` from the trained score and the optional best score. -/
def mkEvaluateModelResponse (trained_model_f1_score : ℚ)
    (best_model_f1_score : Option ℚ) : EvaluateModelResponse :=
  { trained_model_f1_score := trained_model_f1_score
  , best_model_f1_score := best_model_f1_score
  , is_model_accepted :=
      decide (trained_model_f1_score > tmp_best_model_score best_model_f1_score)
  , difference := trained_model_f1_score - tmp_best_model_score best_model_f1_score }

/-- Modelled from the spec: `ModelEvaluationConfig` (src/entity/config_entity.py
is not among the sources) — the configured logical paths read by the
evaluation component: the model-store bucket, the best-model artifact path,
the best-model metric path, and the local report path. -/
structure ModelEvaluationConfig where
  bucket_name : String
  s3_model_path : String
  s3_model_metric_path : String
  model_evaluation_report_file_path : String
deriving DecidableEq, Repr

/-- Modelled from the spec: `ModelTrainerArtifact`
(src/entity/artifact_entity.py is not among the sources) — the trained model
handle and the path of its metric record. -/
structure ModelTrainerArtifact where
  trained_model_file_path : String
  train_metric_artifact_path : String
deriving DecidableEq, Repr

/-- Modelled from the spec: `Proj1Estimator` (src/entity/s3_estimator.py is
not among the sources) — the handle to the production model in the S3 bucket,
holding the configured bucket name and the model / metric paths. -/
structure Proj1Estimator where
  bucket_name : String
  model_path : String
  model_metric_path : String
deriving DecidableEq, Repr

/-- Modelled from the spec: `Proj1Estimator.is_model_present` queries the
artifact store for existence of the model artifact at the given path, through
the prefix-based availability check of the storage service. -/
def Proj1Estimator.is_model_present (_e : Proj1Estimator) (bucket : S3Bucket)
    (model_path : String) : Bool :=
  s3_key_path_available bucket model_path

/-- Modelled from the spec: `Proj1Estimator.is_model_metric_present` queries
the artifact store for existence of the metric record at the given path,
through the prefix-based availability check of the storage service. -/
def Proj1Estimator.is_model_metric_present (_e : Proj1Estimator)
    (bucket : S3Bucket) (model_metric_path : String) : Bool :=
  s3_key_path_available bucket model_metric_path

/-- Modelled from the spec: `Proj1Estimator.load_metrics` fetches and parses
the metric record stored at the configured metric path; a missing record
makes the fetch raise, wrapped into `MyException`. -/
def Proj1Estimator.load_metrics (e : Proj1Estimator) (bucket : S3Bucket) :
    Except PyError Yaml :=
  match bucket.objects.lookup e.model_metric_path with
  | some y => .ok y
  | none => .error (.myException ("metric record not found: " ++ e.model_metric_path))

/-- `ModelEvaluation.get_best_model` (src/components/model_evaluation.py:33-55):
builds a `Proj1Estimator` from the configured paths and returns it when both
the model artifact and its metric record are reported present; otherwise
returns `None`. Exceptions would be wrapped into `MyException`; the presence
checks themselves cannot raise in this model. -/
def get_best_model (cfg : ModelEvaluationConfig) (bucket : S3Bucket) :
    Except PyError (Option Proj1Estimator) :=
  let proj1_estimator : Proj1Estimator :=
    { bucket_name := cfg.bucket_name
    , model_path := cfg.s3_model_path
    , model_metric_path := cfg.s3_model_metric_path }
  if proj1_estimator.is_model_present bucket cfg.s3_model_path
      && proj1_estimator.is_model_metric_present bucket cfg.s3_model_metric_path then
    .ok (some proj1_estimator)
  else
    .ok none

/-- The score-gathering steps of `ModelEvaluation.evaluate_model`
(src/components/model_evaluation.py:69-92): read the trained metric record
from the local file system, extract its `f1_score`, resolve the best model,
and, when one is present, load its metric record and extract its `f1_score`.
Any failure propagates. -/
def evaluate_model_scores (cfg : ModelEvaluationConfig)
    (art : ModelTrainerArtifact) (bucket : S3Bucket) (fs : FileSys) :
    Except PyError (ℚ × Option ℚ) := do
  let trained_model_metric ← read_yaml_file art.train_metric_artifact_path fs
  let trained_model_f1_score ← trained_model_metric.getFloat "f1_score"
  let best_model ← get_best_model cfg bucket
  match best_model with
  | none => return (trained_model_f1_score, none)
  | some bm => do
    let best_metric ← bm.load_metrics bucket
    let best_model_f1_score ← best_metric.getFloat "f1_score"
    return (trained_model_f1_score, some best_model_f1_score)

/-- The `comparison_report` dictionary
(src/components/model_evaluation.py:99-104) built from the response, a Python
`None` best score serialized as null. -/
def comparison_report (result : EvaluateModelResponse) : Yaml :=
  .dict
    [ ("trained_model_f1_score", .flt result.trained_model_f1_score)
    , ("best_model_f1_score",
        match result.best_model_f1_score with
        | none => .null
        | some b => .flt b)
    , ("is_model_accepted", .bool result.is_model_accepted)
    , ("difference", .flt result.difference) ]

/-- `ModelEvaluation.evaluate_model` (src/components/model_evaluation.py:58-119):
gathers the scores, builds the `EvaluateModelResponse`, writes the comparison
report to the configured report path and returns the response; any failure in
the earlier steps propagates and leaves the file system untouched. -/
def evaluate_model (cfg : ModelEvaluationConfig) (art : ModelTrainerArtifact)
    (bucket : S3Bucket) (fs : FileSys) :
    Except PyError EvaluateModelResponse × FileSys :=
  match evaluate_model_scores cfg art bucket fs with
  | .error e => (.error e, fs)
  | .ok (trained_model_f1_score, best_model_f1_score) =>
    let result := mkEvaluateModelResponse trained_model_f1_score best_model_f1_score
    (.ok result,
      write_yaml_file cfg.model_evaluation_report_file_path
        (comparison_report result) false fs)

/-- A boto3 S3 resource, identified by the region it was created with (the
credentials come from fixed module constants). -/
structure S3Resource where
  region_name : String
deriving DecidableEq, Repr

/-- A boto3 S3 client, identified by the region it was created with. -/
structure S3Connection where
  region_name : String
deriving DecidableEq, Repr

/-- The class attributes of `S3Client`
(src/configuration/aws_connection.py:8-9): `S3Client.s3_resource` and
`S3Client.s3_client`, both initially `None`. -/
structure S3ClassState where
  s3_resource : Option S3Resource
  s3_client : Option S3Connection
deriving DecidableEq, Repr

/-- An `S3Client` instance after `__init__`: its `self.s3_resource` and
`self.s3_client` attributes. -/
structure S3ClientInstance where
  s3_resource : S3Resource
  s3_client : S3Connection
deriving DecidableEq, Repr

/-- `S3Client.__init__` (src/configuration/aws_connection.py:11-32): when
either class attribute is `None`, creates the boto3 resource and client with
the given region and stores them on the class; the instance attributes then
alias the class attributes. -/
def S3Client.init (region_name : String) (st : S3ClassState) :
    S3ClientInstance × S3ClassState :=
  match st.s3_resource, st.s3_client with
  | some r, some c => ({ s3_resource := r, s3_client := c }, st)
  | _, _ =>
    let r : S3Resource := { region_name := region_name }
    let c : S3Connection := { region_name := region_name }
    ({ s3_resource := r, s3_client := c },
     { s3_resource := some r, s3_client := some c })

/-- A sequence of `S3Client` constructions in one process, threading the
class state; returns the constructed instances in order together with the
final class state. -/
def runInits : List String → S3ClassState → List S3ClientInstance × S3ClassState
  | [], st => ([], st)
  | region :: rest, st =>
    let step := S3Client.init region st
    let more := runInits rest step.2
    (step.1 :: more.1, more.2)

/-- A configuration with the standard artifact-store and report paths. -/
def evalCfg : ModelEvaluationConfig :=
  { bucket_name := "vehicle-insurance-model-store"
  , s3_model_path := "model/model.pkl"
  , s3_model_metric_path := "metrics/metrics.yaml"
  , model_evaluation_report_file_path := "artifact/model_evaluation/report.yaml" }

/-- A trainer artifact pointing at the local trained-metric record. -/
def trainerArt : ModelTrainerArtifact :=
  { trained_model_file_path := "artifact/model_trainer/model.pkl"
  , train_metric_artifact_path := "artifact/model_trainer/metrics.yaml" }

/-- An empty model-store bucket (fresh deployment, no best model). -/
def emptyBucket : S3Bucket := { objects := [] }

/-- A bucket holding the model artifact but no metric record: the
inconsistent store state. -/
def modelOnlyBucket : S3Bucket :=
  { objects := [("model/model.pkl", .scalar (.str "binary"))] }

/-- An empty local file system. -/
def emptyFs : FileSys := fun _ => none

/-- A bucket holding the best-model metric record but no model artifact. -/
def metricOnlyBucket : S3Bucket :=
  { objects := [("metrics/metrics.yaml", .dict [("f1_score", .flt 1)])] }

/-- A local file system holding only the trained metric record, with an
`f1_score` of 1. -/
def trainedMetricFs : FileSys :=
  fun p => if p = "artifact/model_trainer/metrics.yaml"
    then some (.dict [("f1_score", .flt 1)]) else none

/-- Pointwise description of `write_yaml_file`: the written path holds the
new content and every other path is untouched, for either value of the
`replace` flag. -/
theorem write_yaml_file_apply (file_path : String) (content : Yaml)
    (replace : Bool) (fs : FileSys) (p : String) :
    write_yaml_file file_path content replace fs p
      = if p = file_path then some content else fs p := by
  unfold write_yaml_file
  by_cases hp : p = file_path
  · simp [hp]
  · simp only [hp, if_false]
    split
    · simp [os_remove, hp]
    · rfl

/-- Once both class attributes of `S3Client` are set, every further
construction returns the stored objects and leaves the class state
unchanged. -/
theorem runInits_after_created (rs : List String) (r : S3Resource)
    (c : S3Connection) :
    runInits rs { s3_resource := some r, s3_client := some c }
      = (List.replicate rs.length { s3_resource := r, s3_client := c },
         { s3_resource := some r, s3_client := some c }) := by
  induction rs with
  | nil => rfl
  | cons x xs ih => simp [runInits, S3Client.init, ih, List.replicate]

/-- C1: the acceptance decision is `trained > best` when a best score is
present, `trained > 0` when absent, and a tie is rejected. -/
theorem evaluate_model_accepted_iff (t b : ℚ) :
    ((mkEvaluateModelResponse t (some b)).is_model_accepted = true ↔ t > b)
    ∧ ((mkEvaluateModelResponse t none).is_model_accepted = true ↔ t > 0)
    ∧ (mkEvaluateModelResponse t (some t)).is_model_accepted = false := by
  refine ⟨?_, ?_, ?_⟩
  · simp [mkEvaluateModelResponse, tmp_best_model_score]
  · simp [mkEvaluateModelResponse, tmp_best_model_score]
  · simp [mkEvaluateModelResponse, tmp_best_model_score]

/-- C3: the recorded difference is exactly `t - b` when a best score is
present and exactly `t` when absent; in particular trained `0.75` against
best `0.80` yields exactly `-0.05`. -/
theorem evaluate_model_difference_exact (t b : ℚ) :
    ((mkEvaluateModelResponse t (some b)).difference = t - b)
    ∧ ((mkEvaluateModelResponse t none).difference = t)
    ∧ (mkEvaluateModelResponse (3/4) (some (4/5))).difference = -(1/20) := by
  refine ⟨rfl, by simp [mkEvaluateModelResponse, tmp_best_model_score], by norm_num [mkEvaluateModelResponse, tmp_best_model_score]⟩

/-- C7: the decision computation is a pure function of the two scores — equal
inputs give records equal in every field. -/
theorem evaluate_model_deterministic (t t' : ℚ) (b b' : Option ℚ)
    (ht : t = t') (hb : b = b') :
    mkEvaluateModelResponse t b = mkEvaluateModelResponse t' b' := by
  rw [ht, hb]

/-- Witness for C7 at trained score 1/2 and best score 1/3. -/
theorem evaluate_model_deterministic_witness :
    mkEvaluateModelResponse (1/2) (some (1/3))
      = mkEvaluateModelResponse (1/2) (some (1/3)) :=
  evaluate_model_deterministic (1/2) (1/2) (some (1/3)) (some (1/3)) rfl rfl

/-- C2 counterexample: with the model artifact present in the bucket and the
metric record absent, `get_best_model` returns `None` successfully — it does
not raise an inconsistent-state error. -/
theorem get_best_model_inconsistent_counterexample :
    s3_key_path_available modelOnlyBucket evalCfg.s3_model_path = true
    ∧ s3_key_path_available modelOnlyBucket evalCfg.s3_model_metric_path = false
    ∧ get_best_model evalCfg modelOnlyBucket = Except.ok none :=
  ⟨rfl, rfl, rfl⟩

/-- C2 amended: when the model artifact is present but its metric record is
absent, `get_best_model` returns `None` without raising, silently treating
the best model as absent. -/
theorem get_best_model_none_when_metric_absent (cfg : ModelEvaluationConfig)
    (bucket : S3Bucket)
    (hm : s3_key_path_available bucket cfg.s3_model_path = true)
    (hk : s3_key_path_available bucket cfg.s3_model_metric_path = false) :
    get_best_model cfg bucket = Except.ok none := by
  simp [get_best_model, Proj1Estimator.is_model_present,
    Proj1Estimator.is_model_metric_present, hm, hk]

/-- Witness for the amended C2 at the store state with only the model
artifact. -/
theorem get_best_model_none_when_metric_absent_witness :
    s3_key_path_available modelOnlyBucket "model/model.pkl" = true
    ∧ s3_key_path_available modelOnlyBucket "metrics/metrics.yaml" = false
    ∧ get_best_model evalCfg modelOnlyBucket = Except.ok none :=
  ⟨rfl, rfl, get_best_model_none_when_metric_absent evalCfg modelOnlyBucket rfl rfl⟩

/-- C4: when the model artifact path is reported absent, `get_best_model`
returns `None` without error, whatever the metric-path state. -/
theorem get_best_model_none_when_model_absent (cfg : ModelEvaluationConfig)
    (bucket : S3Bucket)
    (hm : s3_key_path_available bucket cfg.s3_model_path = false) :
    get_best_model cfg bucket = Except.ok none := by
  simp [get_best_model, Proj1Estimator.is_model_present,
    Proj1Estimator.is_model_metric_present, hm]

/-- Witness for C4 at a store state holding the metric record but no model
artifact. -/
theorem get_best_model_none_when_model_absent_witness :
    s3_key_path_available metricOnlyBucket "model/model.pkl" = false
    ∧ s3_key_path_available metricOnlyBucket "metrics/metrics.yaml" = true
    ∧ get_best_model evalCfg metricOnlyBucket = Except.ok none :=
  ⟨rfl, rfl, get_best_model_none_when_model_absent evalCfg metricOnlyBucket rfl⟩

/-- C5: a successful evaluation run persists at the configured report path a
document holding exactly the four report fields, each equal to the
corresponding field of the returned response. -/
theorem evaluate_model_report_matches_result (cfg : ModelEvaluationConfig)
    (art : ModelTrainerArtifact) (bucket : S3Bucket) (fs : FileSys)
    (result : EvaluateModelResponse)
    (h : (evaluate_model cfg art bucket fs).1 = Except.ok result) :
    (evaluate_model cfg art bucket fs).2 cfg.model_evaluation_report_file_path
      = some (Yaml.dict
          [ ("trained_model_f1_score", .flt result.trained_model_f1_score)
          , ("best_model_f1_score",
              match result.best_model_f1_score with
              | none => YamlScalar.null
              | some b => .flt b)
          , ("is_model_accepted", .bool result.is_model_accepted)
          , ("difference", .flt result.difference) ]) := by
  unfold evaluate_model at h ⊢
  rcases hs : evaluate_model_scores cfg art bucket fs with e | ⟨t, b⟩
  · rw [hs] at h
    simp at h
  · rw [hs] at h
    simp at h
    subst h
    simp [write_yaml_file_apply, comparison_report, mkEvaluateModelResponse]

/-- Witness for C5: a run with trained metric 1 and no best model writes the
four-field report matching the returned response. -/
theorem evaluate_model_report_matches_result_witness :
    (evaluate_model evalCfg trainerArt emptyBucket trainedMetricFs).2
        evalCfg.model_evaluation_report_file_path
      = some (Yaml.dict
          [ ("trained_model_f1_score",
              .flt (mkEvaluateModelResponse 1 none).trained_model_f1_score)
          , ("best_model_f1_score",
              match (mkEvaluateModelResponse 1 none).best_model_f1_score with
              | none => YamlScalar.null
              | some b => .flt b)
          , ("is_model_accepted",
              .bool (mkEvaluateModelResponse 1 none).is_model_accepted)
          , ("difference", .flt (mkEvaluateModelResponse 1 none).difference) ]) :=
  evaluate_model_report_matches_result evalCfg trainerArt emptyBucket
    trainedMetricFs (mkEvaluateModelResponse 1 none) rfl

/-- C6: when any step before the decision fails, the run aborts with the
error and the file system is unchanged — no report is created or modified. -/
theorem evaluate_model_no_report_on_failure (cfg : ModelEvaluationConfig)
    (art : ModelTrainerArtifact) (bucket : S3Bucket) (fs : FileSys)
    (e : PyError)
    (h : (evaluate_model cfg art bucket fs).1 = Except.error e) :
    (evaluate_model cfg art bucket fs).2 = fs := by
  unfold evaluate_model at h ⊢
  rcases hs : evaluate_model_scores cfg art bucket fs with e2 | ⟨t, b⟩
  · rfl
  · rw [hs] at h
    simp at h

/-- Witness for C6: with the trained metric file missing, the run fails with
the wrapped file-not-found error and writes nothing. -/
theorem evaluate_model_no_report_on_failure_witness :
    ((evaluate_model evalCfg trainerArt emptyBucket emptyFs).1
        = Except.error (.myException
            ("FileNotFoundError: " ++ "artifact/model_trainer/metrics.yaml")))
    ∧ (evaluate_model evalCfg trainerArt emptyBucket emptyFs).2 = emptyFs :=
  ⟨rfl, evaluate_model_no_report_on_failure evalCfg trainerArt emptyBucket
    emptyFs (.myException
      ("FileNotFoundError: " ++ "artifact/model_trainer/metrics.yaml")) rfl⟩

/-- C8: report writes overwrite — after two successive writes to the same
path, the path holds exactly the second content and the whole file-system
state equals that of the second write alone. -/
theorem write_yaml_file_last_write_wins (file_path : String) (r1 r2 : Yaml)
    (rp1 rp2 : Bool) (fs : FileSys) :
    write_yaml_file file_path r2 rp2 (write_yaml_file file_path r1 rp1 fs)
        file_path = some r2
    ∧ write_yaml_file file_path r2 rp2 (write_yaml_file file_path r1 rp1 fs)
        = write_yaml_file file_path r2 rp2 fs := by
  constructor
  · rw [write_yaml_file_apply]
    simp
  · funext p
    by_cases hp : p = file_path
    · simp [write_yaml_file_apply, hp]
    · simp [write_yaml_file_apply, hp]

/-- C9: across any sequence of `S3Client` constructions starting from the
fresh class state, the boto3 objects are created exactly once, with the first
region; every instance aliases those same objects and later region arguments
have no effect. -/
theorem s3client_connection_singleton (r0 : String) (rs : List String) :
    runInits (r0 :: rs) { s3_resource := none, s3_client := none }
      = (List.replicate (rs.length + 1)
           { s3_resource := { region_name := r0 }
           , s3_client := { region_name := r0 } },
         { s3_resource := some { region_name := r0 }
         , s3_client := some { region_name := r0 } }) := by
  simp [runInits, S3Client.init, runInits_after_created, List.replicate]

/-- C10: the availability check reports a key present exactly when some
stored object key extends it as a string prefix; in particular a key that is
not itself stored is reported present when a longer key extends it. -/
theorem s3_key_path_available_iff (bucket : S3Bucket) (s3_key : String) :
    (s3_key_path_available bucket s3_key = true
      ↔ ∃ k ∈ bucket.objects.map Prod.fst, s3_key.data <+: k.data)
    ∧ s3_key_path_available modelOnlyBucket "model/" = true := by
  constructor
  · simp [s3_key_path_available, List.length_pos_iff_exists_mem,
      List.mem_filter, List.isPrefixOf_iff_prefix, and_comm]
  · rfl
